import Mathlib

set_option maxRecDepth 20000

/-!
Verification model of the SCP-294 drink-dispenser backend.

The repository contains several revisions of the same Express route:
* `src/index.js`, second (latest) revision — sanitizer `clean`, timeouts,
  `extractDrinkStruct`, fallbacks (`handlePost2` below);
* `src/unnamed/part_000` — earliest full server, moderation call not guarded
  by its own try/catch (`handlePost0` below);
* `src/unnamed/part_003` — enriched `{status, source, drink}` envelope,
  local denylist, numeric clamping, and a 500-returning catch
  (`handlePost3` below).

JavaScript values are modelled by `JSVal`; numbers are rationals (the
repository never relies on float rounding, NaN propagation is modelled by
`Option` in `jsToNumber`).
-/

namespace SCP294

/-- Model of a JavaScript value as far as the pipeline needs it. -/
inductive JSVal where
  | undef : JSVal
  | null : JSVal
  | bool (b : Bool) : JSVal
  | num (q : ℚ) : JSVal
  | str (s : String) : JSVal
  | arr (xs : List JSVal) : JSVal
  | obj (fields : List (String × JSVal)) : JSVal

/-- JS truthiness (no NaN in the model). -/
def truthy : JSVal → Bool
  | JSVal.undef => false
  | JSVal.null => false
  | JSVal.bool b => b
  | JSVal.num q => decide (q ≠ 0)
  | JSVal.str s => !s.isEmpty
  | JSVal.arr _ => true
  | JSVal.obj _ => true

/-- Property read `v[k]`.  JS would throw on `undefined`/`null` bases; call
sites either use optional chaining (`optGet`) or model the throw explicitly,
so here non-object bases other than the `length` special cases yield
`undefined`. -/
def getField : JSVal → String → JSVal
  | JSVal.obj fs, k => (((fs.find? (fun kv => kv.1 = k)).map Prod.snd).getD JSVal.undef)
  | JSVal.arr xs, k => if k = "length" then JSVal.num xs.length else JSVal.undef
  | JSVal.str s, k => if k = "length" then JSVal.num s.length else JSVal.undef
  | _, _ => JSVal.undef

/-- Index read `v[i]` for a numeric index. -/
def getIndex : JSVal → Nat → JSVal
  | JSVal.arr xs, i => (xs.get? i).getD JSVal.undef
  | JSVal.str s, i => if i < s.length then JSVal.str (String.mk [s.data.getD i ' ']) else JSVal.undef
  | _, _ => JSVal.undef

/-- Optional chaining `v?.k`. -/
def optGet (v : JSVal) (k : String) : JSVal :=
  match v with
  | JSVal.undef => JSVal.undef
  | JSVal.null => JSVal.undef
  | w => getField w k

/-- Optional chaining `v?.[i]`. -/
def optIndex (v : JSVal) (i : Nat) : JSVal :=
  match v with
  | JSVal.undef => JSVal.undef
  | JSVal.null => JSVal.undef
  | w => getIndex w i

/-- JS `a || b`. -/
def jsOr (a b : JSVal) : JSVal := if truthy a then a else b

/-- JS `a ?? b`. -/
def jsOrNullish (a b : JSVal) : JSVal :=
  match a with
  | JSVal.undef => b
  | JSVal.null => b
  | w => w

/-- Assoc-list update used by `setField`: replace the first binding of `k`
or append a new one. -/
def setAssoc : List (String × JSVal) → String → JSVal → List (String × JSVal)
  | [], k, v => [(k, v)]
  | kv :: rest, k, v => if kv.1 = k then (k, v) :: rest else kv :: setAssoc rest k v

/-- Property write `v[k] = x`.  In non-strict JS an assignment to a primitive
is silently ignored, hence the identity fallback. -/
def setField (v : JSVal) (k : String) (x : JSVal) : JSVal :=
  match v with
  | JSVal.obj fs => JSVal.obj (setAssoc fs k x)
  | w => w

/-- JS `typeof v === "object"` (true for `null`, arrays and plain objects). -/
def isTypeofObj : JSVal → Bool
  | JSVal.null => true
  | JSVal.arr _ => true
  | JSVal.obj _ => true
  | _ => false

def isStr : JSVal → Bool
  | JSVal.str _ => true
  | _ => false

def isBool : JSVal → Bool
  | JSVal.bool _ => true
  | _ => false

/-- JS `v === s` for a string literal `s`. -/
def jsEqStr (v : JSVal) (s : String) : Bool :=
  match v with
  | JSVal.str t => t = s
  | _ => false

/-- JS `list.includes(v)` for a list of string literals (`===` comparison). -/
def strIncludes (allowed : List String) (v : JSVal) : Bool :=
  match v with
  | JSVal.str s => allowed.contains s
  | _ => false

/-! ### String and number coercions -/

/-- Whitespace recognised by `String.prototype.trim` (ASCII subset; the
pipeline never feeds it exotic Unicode spaces). -/
def jsWS (c : Char) : Bool :=
  c = ' ' || c = '\t' || c = '\n' || c = '\r' || c = Char.ofNat 11 || c = Char.ofNat 12

/-- JS `s.trim()`. -/
def jsTrim (s : String) : String :=
  String.mk (((s.data.dropWhile jsWS).reverse.dropWhile jsWS).reverse)

/-- JS `s.slice(0, n)` (the code only ever slices from 0). -/
def jsSlice (s : String) (n : Nat) : String :=
  String.mk (s.data.take n)

/-- JS `s.toLowerCase()` (ASCII). -/
def jsToLower (s : String) : String :=
  String.mk (s.data.map Char.toLower)

/-- JS `(a || b)` on strings. -/
def stringOr (a b : String) : String := if a = "" then b else a

def listStartsWith : List Char → List Char → Bool
  | _, [] => true
  | [], _ :: _ => false
  | a :: as, b :: bs => (a = b) && listStartsWith as bs

/-- JS `hay.includes(needle)` on strings, as a scan over the characters. -/
def listHasSub : List Char → List Char → Bool
  | [], needle => needle.isEmpty
  | a :: rest, needle => listStartsWith (a :: rest) needle || listHasSub rest needle

def digitsToNat (cs : List Char) : Nat :=
  cs.foldl (fun a c => a * 10 + (c.toNat - 48)) 0

def padZeros (s : String) (k : Nat) : String :=
  String.mk (List.replicate (k - s.length) '0') ++ s

/-- Decimal rendering of a rational whose denominator divides a power of ten,
used by `numToString`.  Every number the pipeline can stringify was parsed
from a decimal literal, so this case is exhaustive in practice; the final
fallback is never reached by modelled inputs. -/
def decimalRepr (q : ℚ) : String :=
  match (List.range 30).find? (fun k => ((10 : Int) ^ (k + 1)) % (q.den : Int) = 0) with
  | some k0 =>
    let k := k0 + 1
    let scaled : Int := q.num * ((10 : Int) ^ k) / (q.den : Int)
    let sign := if scaled < 0 then "-" else ""
    let a := scaled.natAbs
    let ip := a / 10 ^ k
    let fp := a % 10 ^ k
    sign ++ toString ip ++ "." ++ padZeros (toString fp) k
  | none => toString q.num ++ "/" ++ toString q.den

/-- JS `String(n)` for a number (integers and terminating decimals; the
model has no NaN/Infinity values). -/
def numToString (q : ℚ) : String :=
  if q.den = 1 then toString q.num else decimalRepr q

mutual

/-- JS `String(v)`. -/
def jsToString : JSVal → String
  | JSVal.undef => "undefined"
  | JSVal.null => "null"
  | JSVal.bool b => cond b "true" "false"
  | JSVal.num q => numToString q
  | JSVal.str s => s
  | JSVal.obj _ => "[object Object]"
  | JSVal.arr xs => String.intercalate "," (jsArrParts xs)

/-- JS `Array.prototype.toString`: elements joined by commas, with `null` and
`undefined` rendered as empty strings. -/
def jsArrParts : List JSVal → List String
  | [] => []
  | JSVal.undef :: rest => "" :: jsArrParts rest
  | JSVal.null :: rest => "" :: jsArrParts rest
  | v :: rest => jsToString v :: jsArrParts rest

end

/-- Numeric literal accepted by JS `Number(...)` after trimming: optional
sign, then digits with an optional fraction part (hex/exponent literals are
not produced by any modelled code path).  The value is assembled with
`mkRat` over integer arithmetic so that it evaluates inside the kernel. -/
def parseNumQ (s : String) : Option ℚ :=
  let cs := s.data
  if cs.isEmpty then some 0
  else
    let sgn : Int := if cs.head? = some '-' then -1 else 1
    let cs1 := match cs with
      | '-' :: rest => rest
      | '+' :: rest => rest
      | l => l
    let ip := cs1.takeWhile Char.isDigit
    let rest1 := cs1.dropWhile Char.isDigit
    match rest1 with
    | [] => if ip.isEmpty then none else some (mkRat (sgn * (digitsToNat ip : Int)) 1)
    | '.' :: rest2 =>
      let fp := rest2.takeWhile Char.isDigit
      let rest3 := rest2.dropWhile Char.isDigit
      if rest3.isEmpty && !(ip.isEmpty && fp.isEmpty) then
        some (mkRat (sgn * ((digitsToNat ip * 10 ^ fp.length + digitsToNat fp : Nat) : Int)) (10 ^ fp.length))
      else none
    | _ => none

/-- JS `Number(v)`; `none` stands for NaN. -/
def jsToNumber : JSVal → Option ℚ
  | JSVal.undef => none
  | JSVal.null => some 0
  | JSVal.bool b => some (cond b 1 0)
  | JSVal.num q => some q
  | JSVal.str s => parseNumQ (jsTrim s)
  | JSVal.arr xs => parseNumQ (jsTrim (jsToString (JSVal.arr xs)))
  | JSVal.obj _ => none

/-- JS `(Number(v) || 0)`: NaN collapses to `0`. -/
def numOr0 (v : JSVal) : ℚ := (jsToNumber v).getD 0

/-! ### JSON parsing (`JSON.parse`) -/

def jsonWS (c : Char) : Bool := c = ' ' || c = '\t' || c = '\n' || c = '\r'

def skipWs (cs : List Char) : List Char := cs.dropWhile jsonWS

/-- Body of a JSON string after the opening quote; returns the decoded
string and the remainder after the closing quote.  The common escapes are
decoded; `\u` escapes are not produced by any modelled code path. -/
def parseStringRest : List Char → Option (String × List Char)
  | [] => none
  | '"' :: rest => some ("", rest)
  | '\\' :: e :: rest =>
    (match e with
      | '"' => some '"'
      | '\\' => some '\\'
      | '/' => some '/'
      | 'n' => some '\n'
      | 't' => some '\t'
      | 'r' => some '\r'
      | 'b' => some (Char.ofNat 8)
      | 'f' => some (Char.ofNat 12)
      | _ => none).bind fun c =>
    (parseStringRest rest).map fun (p : String × List Char) => (String.mk (c :: p.1.data), p.2)
  | c :: rest => (parseStringRest rest).map fun (p : String × List Char) => (String.mk (c :: p.1.data), p.2)

/-- JSON number: sign, integer digits, optional fraction, optional exponent,
assembled with `mkRat` over integer arithmetic. -/
def parseJsonNumber (cs : List Char) : Option (JSVal × List Char) :=
  let (sgn, cs1) : Int × List Char := match cs with
    | '-' :: rest => (-1, rest)
    | l => (1, l)
  let ip := cs1.takeWhile Char.isDigit
  let rest1 := cs1.dropWhile Char.isDigit
  if ip.isEmpty then none
  else
    let (fp, rest2) : List Char × List Char := match rest1 with
      | '.' :: r => (r.takeWhile Char.isDigit, r.dropWhile Char.isDigit)
      | _ => ([], rest1)
    if rest1.head? = some '.' && fp.isEmpty then none
    else
      let mantissa : Int := sgn * ((digitsToNat ip * 10 ^ fp.length + digitsToNat fp : Nat) : Int)
      let scale : Nat := 10 ^ fp.length
      match rest2 with
      | 'e' :: r => parseJsonExp mantissa scale r
      | 'E' :: r => parseJsonExp mantissa scale r
      | _ => some (JSVal.num (mkRat mantissa scale), rest2)
where
  parseJsonExp (mantissa : Int) (scale : Nat) (r : List Char) : Option (JSVal × List Char) :=
    let (esgn, r1) : Bool × List Char := match r with
      | '-' :: rr => (true, rr)
      | '+' :: rr => (false, rr)
      | l => (false, l)
    let ed := r1.takeWhile Char.isDigit
    let r2 := r1.dropWhile Char.isDigit
    if ed.isEmpty then none
    else
      let e := digitsToNat ed
      if esgn then some (JSVal.num (mkRat mantissa (scale * 10 ^ e)), r2)
      else some (JSVal.num (mkRat (mantissa * ((10 ^ e : Nat) : Int)) scale), r2)

mutual

/-- Recursive-descent JSON value; the fuel argument strictly decreases on
every nested call and is sized generously by `jsonParse`. -/
def parseVal : Nat → List Char → Option (JSVal × List Char)
  | 0, _ => none
  | Nat.succ fuel, cs =>
    match skipWs cs with
    | 'n' :: 'u' :: 'l' :: 'l' :: rest => some (JSVal.null, rest)
    | 't' :: 'r' :: 'u' :: 'e' :: rest => some (JSVal.bool true, rest)
    | 'f' :: 'a' :: 'l' :: 's' :: 'e' :: rest => some (JSVal.bool false, rest)
    | '"' :: rest => (parseStringRest rest).map fun p => (JSVal.str p.1, p.2)
    | '[' :: rest =>
      (match skipWs rest with
        | ']' :: rest2 => some (JSVal.arr [], rest2)
        | l => (parseElems fuel l).map fun p => (JSVal.arr p.1, p.2))
    | '\x7b' :: rest =>
      (match skipWs rest with
        | '\x7d' :: rest2 => some (JSVal.obj [], rest2)
        | l => (parseMembers fuel l).map fun p => (JSVal.obj p.1, p.2))
    | l => parseJsonNumber l

/-- Comma-separated array elements up to the closing bracket. -/
def parseElems : Nat → List Char → Option (List JSVal × List Char)
  | 0, _ => none
  | Nat.succ fuel, cs =>
    match parseVal fuel cs with
    | none => none
    | some (v, rest) =>
      match skipWs rest with
      | ',' :: rest2 => (parseElems fuel rest2).map fun p => (v :: p.1, p.2)
      | ']' :: rest2 => some ([v], rest2)
      | _ => none

/-- Comma-separated `"key": value` members up to the closing brace. -/
def parseMembers : Nat → List Char → Option (List (String × JSVal) × List Char)
  | 0, _ => none
  | Nat.succ fuel, cs =>
    match skipWs cs with
    | '"' :: rest =>
      (match parseStringRest rest with
        | none => none
        | some (k, rest2) =>
          match skipWs rest2 with
          | ':' :: rest3 =>
            (match parseVal fuel (skipWs rest3) with
              | none => none
              | some (v, rest4) =>
                match skipWs rest4 with
                | ',' :: rest5 => (parseMembers fuel rest5).map fun p => ((k, v) :: p.1, p.2)
                | '\x7d' :: rest5 => some ([(k, v)], rest5)
                | _ => none)
          | _ => none)
    | _ => none

end

/-- JS `JSON.parse(s)` as a partial function: `none` models the thrown
`SyntaxError`.  Requires the whole input (up to trailing whitespace) to be
consumed, as `JSON.parse` does. -/
def jsonParse (s : String) : Option JSVal :=
  match parseVal (2 * s.data.length + 8) s.data with
  | some (v, rest) => if (skipWs rest).isEmpty then some v else none
  | none => none

/-- The greedy regex `\x7b[\s\S]*\x7d` (first opening brace through the last
closing brace), used by the extractor before a reparse attempt. -/
def greedyBraceMatch (s : String) : Option String :=
  let cs := s.data
  match cs.findIdx? (fun c => c = '\x7b') with
  | none => none
  | some i =>
    match cs.reverse.findIdx? (fun c => c = '\x7d') with
    | none => none
    | some jr =>
      let j := cs.length - 1 - jr
      if i < j then some (String.mk ((cs.drop i).take (j - i + 1))) else none

/-- JS `s.startsWith("\x7b")`. -/
def startsWithBrace (s : String) : Bool :=
  match s.data with
  | '\x7b' :: _ => true
  | _ => false

/-- JS `s.endsWith("\x7d")`. -/
def endsWithBrace (s : String) : Bool :=
  match s.data.getLast? with
  | some '\x7d' => true
  | _ => false

/-- The two-step text recovery used by `extractDrinkStruct` on an already
trimmed string: whole-string parse when it is brace-delimited, then the
greedy brace extraction, `none` when both fail. -/
def tryTextCandidate (s : String) : Option JSVal :=
  match (if startsWithBrace s && endsWithBrace s then jsonParse s else none) with
  | some v => some v
  | none =>
    match greedyBraceMatch s with
    | some m => jsonParse m
    | none => none

/-! ### Catalogs and schemas (src/index.js revision 2, src/unnamed/part_003) -/

/-- Effect enum of the latest `src/index.js` revision. -/
def EFFECTS2 : List String :=
  ["NONE", "WARMTH", "COOLING", "SPEED_SMALL", "JUMP_SMALL", "GLOW",
   "SHRINK_VFX", "GROW_VFX", "BURP", "EXPLODE"]

def TEMPS : List String := ["cold", "cool", "ambient", "warm", "hot"]

def CONTAINERS : List String := ["paper_cup", "mug", "glass", "metal_cup"]

/-- Effect enum of the `src/unnamed/part_003` revision. -/
def EFFECT_ENUM3 : List String :=
  ["NONE", "WARMTH", "COOLING",
   "SPEED_SMALL", "SPEED_MED", "SPEED_LARGE",
   "JUMP_SMALL", "JUMP_MED",
   "LOW_GRAVITY", "HIGH_GRAVITY", "SLIPPERY", "STICKY",
   "GLOW", "GLOW_STRONG", "AURA_SPARKS", "SMOKE_PUFF",
   "CAMERA_SHAKE", "TUNNEL_VISION", "SPIN", "KNOCKDOWN",
   "BURP", "BREEZE", "POP_EXPLODE",
   "BURP_SFX", "SODA_OPEN", "MAGIC_CHIME", "THUNDER_CLAP", "BASS_DROP", "DUCK_QUACK",
   "BUBBLES", "CONFETTI", "HEARTS", "SKULLS", "STARBURST", "FOG_RING", "FOG_RING_EMIT",
   "DUCK_PROP", "BALLOON_SPAWN", "HAT_PROP",
   "VINTAGE_FILTER", "PIXELATE", "SCANLINES",
   "SHRINK_VFX", "GROW_VFX"]

/-- Denylist of `src/unnamed/part_003`. -/
def DENY : List String :=
  ["acid", "cyanide", "poison", "bleach", "mercury", "radiation", "uranium",
   "napalm", "arsenic", "rat poison", "chloroform", "lye",
   "blood", "semen", "urine", "feces", "gasoline", "diesel", "antifreeze",
   "heroin", "cocaine", "meth", "fentanyl"]

/-- The `isDenied` helper of part_003: case-insensitive substring match. -/
def isDenied (query : String) : Bool :=
  DENY.any (fun term => listHasSub (jsToLower query).data term.data)

/-- The pattern `^#([0-9A-Fa-f]\x7b6\x7d)$`. -/
def isHexDigit (c : Char) : Bool :=
  c.isDigit || ('a' ≤ c && c ≤ 'f') || ('A' ≤ c && c ≤ 'F')

def hexPattern (s : String) : Bool :=
  match s.data with
  | '#' :: rest => rest.length = 6 && rest.all isHexDigit
  | _ => false

/-- The `visual` sub-object of a sanitized response. -/
structure Visual where
  foam : Bool
  bubbles : Bool
  steam : Bool

/-- A response object as produced by revision 2 of `src/index.js`: every
field the `clean` literal and the static fallback literals carry.
`colorHex` stays a raw `JSVal` because `clean` keeps the original candidate
value when its string coercion matches the hex pattern; `effectParams` stays
raw because `clean` passes it through, and `JSVal.undef` marks a literal
with no `effectParams` key at all. -/
structure Drink where
  displayName : String
  colorHex : JSVal
  temperature : String
  container : String
  visual : Visual
  tasteNotes : List String
  effectId : String
  effectParams : JSVal
  message : String

/-- JSON body produced by `res.json` for a `Drink`, with the literal key
order of the source objects. -/
def drinkToJS (d : Drink) : JSVal :=
  JSVal.obj
    ([("displayName", JSVal.str d.displayName),
      ("colorHex", d.colorHex),
      ("temperature", JSVal.str d.temperature),
      ("container", JSVal.str d.container),
      ("visual", JSVal.obj
        [("foam", JSVal.bool d.visual.foam),
         ("bubbles", JSVal.bool d.visual.bubbles),
         ("steam", JSVal.bool d.visual.steam)]),
      ("tasteNotes", JSVal.arr (d.tasteNotes.map JSVal.str)),
      ("effectId", JSVal.str d.effectId)]
     ++ (match d.effectParams with
         | JSVal.undef => []
         | ep => [("effectParams", ep)])
     ++ [("message", JSVal.str d.message)])

/-! ### Fallback ladder (src/index.js revision 2; the literals are shared
verbatim with part_000 where noted) -/

/-- The `FALLBACK_OK(q)` literal of revision 2 (lines 202-211). -/
def FALLBACK_OK (q : String) : Drink :=
  { displayName := stringOr q "Generic Beverage"
    colorHex := JSVal.str "#A0C4FF"
    temperature := "ambient"
    container := "paper_cup"
    visual := { foam := false, bubbles := true, steam := false }
    tasteNotes := ["mild"]
    effectId := "NONE"
    effectParams := JSVal.undef
    message := "A nondescript drink dispenses with a soft hum." }

/-- The moderation-flagged refusal literal (same object in revision 2 and
part_000). -/
def REFUSAL : Drink :=
  { displayName := "Unknown Liquid"
    colorHex := JSVal.str "#7F7F7F"
    temperature := "ambient"
    container := "paper_cup"
    visual := { foam := false, bubbles := false, steam := false }
    tasteNotes := ["neutral"]
    effectId := "NONE"
    effectParams := JSVal.undef
    message := "The machine refuses to dispense that request." }

/-- The hard-failsafe coolant literal of the outer catch (same object in
revision 2 and part_000). -/
def FAILSAFE : Drink :=
  { displayName := "Machine Coolant (Safe Replica)"
    colorHex := JSVal.str "#88E0FF"
    temperature := "cool"
    container := "metal_cup"
    visual := { foam := false, bubbles := false, steam := false }
    tasteNotes := ["minty"]
    effectId := "COOLING"
    effectParams := JSVal.undef
    message := "Failsafe blend dispensed." }

/-- The parse-failure fallback literal of part_000 (fixed display name, not
derived from the query). -/
def FALLBACK0 : Drink :=
  { displayName := "Generic Beverage"
    colorHex := JSVal.str "#A0C4FF"
    temperature := "ambient"
    container := "paper_cup"
    visual := { foam := false, bubbles := true, steam := false }
    tasteNotes := ["mild"]
    effectId := "NONE"
    effectParams := JSVal.undef
    message := "A nondescript drink dispenses with a soft hum." }

/-! ### Extractor of revision 2 (`extractDrinkStruct`) -/

/-- Inner loop over a `content` array: the `parsed` and `json` shortcuts,
then the `output_text` text recovery; `none` means the loops continue. -/
def scanContent : List JSVal → Option JSVal
  | [] => none
  | c :: rest =>
    if truthy c && isTypeofObj (getField c "parsed") then some (getField c "parsed")
    else if truthy c && isTypeofObj (getField c "json") then some (getField c "json")
    else
      match (if jsEqStr (optGet c "type") "output_text" then
               match getField c "text" with
               | JSVal.str s => tryTextCandidate (jsTrim s)
               | _ => none
             else none) with
      | some v => some v
      | none => scanContent rest

/-- Outer loop over the `output` array. -/
def scanOutput : List JSVal → Option JSVal
  | [] => none
  | item :: rest =>
    match (match optGet item "content" with
           | JSVal.arr cs => scanContent cs
           | _ => none) with
    | some v => some v
    | none => scanOutput rest

/-- The extractor `extractDrinkStruct(r)` of revision 2: parsed JSON in whatever shape the
SDK returned it, `JSVal.null` when nothing worked. -/
def extractDrinkStruct (r : JSVal) : JSVal :=
  if truthy r && truthy (getField r "output_parsed") then getField r "output_parsed"
  else
    match (match optGet r "output" with
           | JSVal.arr items => scanOutput items
           | _ => none) with
    | some v => v
    | none =>
      match optGet r "output_text" with
      | JSVal.str t =>
        if jsTrim t ≠ "" then
          match tryTextCandidate (jsTrim t) with
          | some v => v
          | none => JSVal.null
        else JSVal.null
      | _ => JSVal.null

/-! ### Sanitizer of revision 2 (`clean`) -/

/-- JS `allowed.includes(v) ? v : dflt` where the result is used as a string
(`includes` never matches a non-string value). -/
def pickEnum (allowed : List String) (v : JSVal) (dflt : String) : String :=
  match v with
  | JSVal.str s => if allowed.contains s then s else dflt
  | _ => dflt

/-- The `clean` guardrail object of revision 2 (lines 329-344), field by
field from the source. -/
def clean (data : JSVal) (query : String) : Drink :=
  { displayName :=
      jsSlice (jsToString (jsOr (getField data "displayName")
        (jsOr (JSVal.str query) (JSVal.str "Beverage")))) 40
    colorHex :=
      if hexPattern (jsToString (getField data "colorHex")) then getField data "colorHex"
      else JSVal.str "#A0C4FF"
    temperature := pickEnum TEMPS (getField data "temperature") "ambient"
    container := pickEnum CONTAINERS (getField data "container") "paper_cup"
    visual :=
      { foam := truthy (optGet (optGet data "visual") "foam")
        bubbles := truthy (optGet (optGet data "visual") "bubbles")
        steam := truthy (optGet (optGet data "visual") "steam") }
    tasteNotes :=
      match getField data "tasteNotes" with
      | JSVal.arr xs => (xs.take 3).map jsToString
      | _ => []
    effectId := pickEnum EFFECTS2 (getField data "effectId") "NONE"
    effectParams :=
      if isTypeofObj (getField data "effectParams") && truthy (getField data "effectParams")
      then getField data "effectParams"
      else JSVal.obj []
    message :=
      stringOr (jsSlice (jsToString (jsOr (getField data "message") (JSVal.str ""))) 120)
        "The machine chirps pleasantly." }

/-! ### HTTP routes -/

/-- Result of an awaited external call: `failed` covers a rejection from the
service as well as the `withTimeout` race losing. -/
inductive CallResult where
  | failed : CallResult
  | ok (v : JSVal) : CallResult

/-- Response sent by a route handler. -/
inductive HttpResp where
  | badRequest (body : JSVal) : HttpResp
  | okJson (body : JSVal) : HttpResp
  | errorStatus (code : Nat) (body : JSVal) : HttpResp

def is5xx : HttpResp → Bool
  | HttpResp.errorStatus c _ => 500 ≤ c
  | _ => false

/-- The query normalization `String(req.body?.query ?? "").slice(0, 50).trim()` (revision 2 and
part_000 of src/index.js). -/
def processedQuery2 (body : JSVal) : String :=
  jsTrim (jsSlice (jsToString (jsOrNullish (optGet body "query") (JSVal.str ""))) 50)

/-- The flag check `mod?.results?.[0]?.flagged` over the try/catch of revision 2: a failed
or timed-out moderation call is swallowed and counts as not flagged. -/
def moderationFlagged : CallResult → Bool
  | CallResult.failed => false
  | CallResult.ok m => truthy (optGet (optIndex (optGet m "results") 0) "flagged")

/-- Route `POST /api/scp294` of src/index.js revision 2 (lines 267-361).
`rateLimited` models `limiter.consume` throwing into the outer catch;
`mod` and `gen` are the resolutions of the two awaited external calls. -/
def handlePost2 (body : JSVal) (rateLimited : Bool) (mod : CallResult) (gen : CallResult) : HttpResp :=
  if rateLimited then HttpResp.okJson (drinkToJS FAILSAFE)
  else
    let query := processedQuery2 body
    if query = "" then HttpResp.badRequest (JSVal.obj [("error", JSVal.str "Missing query")])
    else if moderationFlagged mod then HttpResp.okJson (drinkToJS REFUSAL)
    else
      match gen with
      | CallResult.failed => HttpResp.okJson (drinkToJS (FALLBACK_OK query))
      | CallResult.ok resp =>
        let data := extractDrinkStruct resp
        if !truthy data || !truthy (getField data "effectId") then
          HttpResp.okJson (drinkToJS (FALLBACK_OK query))
        else
          HttpResp.okJson (drinkToJS (clean data query))

/-- Route `POST /api/scp294` of src/unnamed/part_000 (lines 24-97).  The
moderation call has no try/catch of its own, so a failure there lands in
the outer catch and yields the hard failsafe; the generation call is
likewise unguarded.  Success-path data is returned with no sanitizer. -/
def handlePost0 (body : JSVal) (rateLimited : Bool) (mod : CallResult) (gen : CallResult) : HttpResp :=
  if rateLimited then HttpResp.okJson (drinkToJS FAILSAFE)
  else
    let query := processedQuery2 body
    if query = "" then HttpResp.badRequest (JSVal.obj [("error", JSVal.str "Missing query")])
    else
      match mod with
      | CallResult.failed => HttpResp.okJson (drinkToJS FAILSAFE)
      | CallResult.ok JSVal.undef => HttpResp.okJson (drinkToJS FAILSAFE)
      | CallResult.ok JSVal.null => HttpResp.okJson (drinkToJS FAILSAFE)
      | CallResult.ok m =>
        if truthy (optGet (optIndex (getField m "results") 0) "flagged") then
          HttpResp.okJson (drinkToJS REFUSAL)
        else
          match gen with
          | CallResult.failed => HttpResp.okJson (drinkToJS FAILSAFE)
          | CallResult.ok JSVal.undef => HttpResp.okJson (drinkToJS FAILSAFE)
          | CallResult.ok JSVal.null => HttpResp.okJson (drinkToJS FAILSAFE)
          | CallResult.ok resp =>
            let content := jsOrNullish
              (optGet (optIndex (optGet (optIndex (getField resp "output") 0) "content") 0) "text")
              (JSVal.str "\x7b\x7d")
            let data := match jsonParse (jsToString content) with
              | some v => v
              | none => JSVal.null
            if !truthy data || !truthy (getField data "effectId") then
              HttpResp.okJson (drinkToJS FALLBACK0)
            else
              HttpResp.okJson data

/-! ### src/unnamed/part_003: enriched-envelope revision -/

/-- The query normalization `String((req.body && req.body.query) || "").trim()` — note: no
`slice(0, 50)` in this revision, and `||` (not `??`) drops falsy values. -/
def query3 (body : JSVal) : String :=
  jsTrim (jsToString (jsOr (if truthy body then getField body "query" else body) (JSVal.str "")))

/-- The `effectParams` defaults used when an unknown `effectId` is normalized. -/
def defaultParams3 : JSVal :=
  JSVal.obj
    [("duration", JSVal.num 0), ("speedMultiplier", JSVal.num 1),
     ("jumpBoost", JSVal.num 0), ("glowBrightness", JSVal.num 0),
     ("power", JSVal.num 0), ("radius", JSVal.num 0)]

/-- The `FALLBACK_DENY(q)` literal of part_003 (the query is not interpolated). -/
def FALLBACK_DENY3 (_q : String) : JSVal :=
  JSVal.obj
    [("drinkName", JSVal.str "Unknown Liquid"),
     ("colorHex", JSVal.str "#5A5A5A"),
     ("description", JSVal.str "The machine hums but refuses your request."),
     ("tasteNotes", JSVal.str "Flat, metallic, indeterminate."),
     ("effectId", JSVal.str "NONE"),
     ("effectParams", defaultParams3),
     ("safe", JSVal.bool false)]

/-- The `FALLBACK_OK(q)` literal of part_003. -/
def FALLBACK_OK3 (q : String) : JSVal :=
  JSVal.obj
    [("drinkName", JSVal.str ("Cup of " ++ jsSlice q 50)),
     ("colorHex", JSVal.str "#8FD6FF"),
     ("description", JSVal.str "A mysteriously accurate rendition appears in the cup."),
     ("tasteNotes", JSVal.str "Surprisingly authentic."),
     ("effectId", JSVal.str "NONE"),
     ("effectParams", defaultParams3),
     ("safe", JSVal.bool true)]

/-- The check `o.output.length > 0`: a missing `length` compares false. -/
def lengthPositive (v : JSVal) : Bool :=
  match getField v "length" with
  | JSVal.num q => decide (0 < q)
  | _ => false

/-- Outcome of the try block inside `extractDrink` of part_003: a returned
value, a thrown error (caught by the inner catch), or falling off the end
of the block. -/
inductive TryOut where
  | ret (v : JSVal) : TryOut
  | thrown : TryOut
  | fellThrough : TryOut

/-- The try block of `extractDrink` (part_003 lines 115-127).  Reading a
property off a nullish `o.output[0]` throws; `throw new Error("no content")`
and a failed `JSON.parse` also land in the catch. -/
def extractDrink3Main (o : JSVal) : TryOut :=
  if truthy (getField o "output") && lengthPositive (getField o "output") then
    match getIndex (getField o "output") 0 with
    | JSVal.undef => TryOut.thrown
    | JSVal.null => TryOut.thrown
    | e0 =>
      let c1 := getField e0 "content"
      let content := if truthy c1 then getIndex c1 0 else c1
      if !truthy content then TryOut.thrown
      else if jsEqStr (getField content "type") "output_text" then
        match jsonParse (jsToString (getField content "text")) with
        | some v => TryOut.ret v
        | none => TryOut.thrown
      else if jsEqStr (getField content "type") "output_json" then
        TryOut.ret (getField content "json")
      else TryOut.fellThrough
  else TryOut.fellThrough

/-- The extractor `extractDrink(resp)` of part_003; `none` models the final
`throw new Error("Unable to parse model output")`, which the route catch
turns into a 500. -/
def extractDrink3 (resp : JSVal) : Option JSVal :=
  let o := jsOr resp (JSVal.obj [])
  match extractDrink3Main o with
  | TryOut.ret v => some v
  | TryOut.fellThrough => none
  | TryOut.thrown =>
    if truthy (getField o "output_text") then
      match jsonParse (jsToString (getField o "output_text")) with
      | some v => some v
      | none => none
    else none

/-- The clamp `Math.max(lo, Math.min(hi, Number(v) || 0))`. -/
def clampQ (v : JSVal) (lo hi : ℚ) : ℚ := max lo (min hi (numOr0 v))

/-- The six clamp assignments of part_003 lines 203-208 applied to `ep`. -/
def clampBlock (ep0 : JSVal) : JSVal :=
  let ep1 := setField ep0 "duration" (JSVal.num (clampQ (getField ep0 "duration") 0 60))
  let ep2 := setField ep1 "speedMultiplier"
    (JSVal.num (clampQ (getField ep1 "speedMultiplier") (mkRat 1 5) 3))
  let ep3 := setField ep2 "jumpBoost" (JSVal.num (clampQ (getField ep2 "jumpBoost") 0 80))
  let ep4 := setField ep3 "glowBrightness" (JSVal.num (clampQ (getField ep3 "glowBrightness") 0 20))
  let ep5 := setField ep4 "power" (JSVal.num (clampQ (getField ep4 "power") 0 10))
  setField ep5 "radius" (JSVal.num (clampQ (getField ep5 "radius") 0 30))

/-- The post-extraction guard of the part_003 route (lines 194-209):
normalize an out-of-enum `effectId` and clamp the numeric params.  `none`
models the TypeError thrown by `drink.effectId` on a nullish `drink`
(surfaced as a 500 by the route catch). -/
def sanitize3 (drink0 : JSVal) : Option JSVal :=
  match drink0 with
  | JSVal.undef => none
  | JSVal.null => none
  | d0 =>
    let drink :=
      if !strIncludes EFFECT_ENUM3 (getField d0 "effectId") then
        setField (setField d0 "effectId" (JSVal.str "NONE")) "effectParams" defaultParams3
      else d0
    let ep := jsOr (getField drink "effectParams") (JSVal.obj [])
    some (setField drink "effectParams" (clampBlock ep))

/-- Resolution of the `fetch` to the generation service in part_003. -/
inductive Gen3Outcome where
  | networkError : Gen3Outcome
  | notOk : Gen3Outcome
  | okBody (data : JSVal) : Gen3Outcome

def err500Body3 : JSVal :=
  JSVal.obj
    [("status", JSVal.str "error"), ("code", JSVal.num 500),
     ("message", JSVal.str "Server error")]

def err400Body3 : JSVal :=
  JSVal.obj
    [("status", JSVal.str "error"), ("code", JSVal.num 400),
     ("message", JSVal.str "Missing \x27query\x27 body field")]

/-- Route `POST /api/scp294` of part_003 (lines 150-216).  `networkError` covers
`fetch`/`r.json()` rejecting; `notOk` is `!r.ok`; unexpected throws inside
the try (unparseable output, nullish drink) reach the catch, which responds
with HTTP 500. -/
def handlePost3 (body : JSVal) (gen : Gen3Outcome) : HttpResp :=
  let query := query3 body
  if query = "" then HttpResp.badRequest err400Body3
  else if isDenied query then
    HttpResp.okJson
      (JSVal.obj [("status", JSVal.str "ok"), ("source", JSVal.str "denylist"),
        ("drink", FALLBACK_DENY3 query)])
  else
    match gen with
    | Gen3Outcome.networkError => HttpResp.errorStatus 500 err500Body3
    | Gen3Outcome.notOk =>
      HttpResp.okJson
        (JSVal.obj [("status", JSVal.str "ok"), ("source", JSVal.str "fallback"),
          ("drink", FALLBACK_OK3 query)])
    | Gen3Outcome.okBody data =>
      match extractDrink3 data with
      | none => HttpResp.errorStatus 500 err500Body3
      | some drink =>
        match sanitize3 drink with
        | none => HttpResp.errorStatus 500 err500Body3
        | some d =>
          HttpResp.okJson
            (JSVal.obj [("status", JSVal.str "ok"), ("source", JSVal.str "model"),
              ("drink", d)])

/-! ### The Response Schema of revision 2 as a checkable predicate -/

def isStrMax (v : JSVal) (n : Nat) : Bool :=
  match v with
  | JSVal.str s => s.length ≤ n
  | _ => false

def hexValid (v : JSVal) : Bool :=
  match v with
  | JSVal.str s => hexPattern s
  | _ => false

/-- Declared `[minimum, maximum]` of each `effectParams` key in the revision
2 `DrinkSchema` (`0.5` and `2.0` written as `mkRat`). -/
def paramRange2 (k : String) : Option (ℚ × ℚ) :=
  if k = "duration" then some (mkRat 1 2, 15)
  else if k = "speedMultiplier" then some (mkRat 1 2, 2)
  else if k = "jumpBoost" then some (0, 50)
  else if k = "glowBrightness" then some (0, 10)
  else if k = "power" then some (0, 1)
  else if k = "radius" then some (0, 12)
  else none

/-- One `effectParams` entry: a declared key holding a number inside its
declared bounds. -/
def paramEntryOk (k : String) (v : JSVal) : Bool :=
  match paramRange2 k, v with
  | some (lo, hi), JSVal.num q => lo ≤ q && q ≤ hi
  | _, _ => false

def paramKeys : List String :=
  ["duration", "speedMultiplier", "jumpBoost", "glowBrightness", "power", "radius"]

/-- The `effectParams` entry against the revision 2 schema: optional as a whole, and
when present an object with no extra keys, every declared key present
(strict mode requires all of `required`), and every value within bounds. -/
def paramsValid2 : JSVal → Bool
  | JSVal.undef => true
  | JSVal.obj fs =>
    fs.all (fun kv => paramEntryOk kv.1 kv.2)
      && paramKeys.all (fun k => (fs.find? (fun kv => kv.1 = k)).isSome)
  | _ => false

/-- The `visual` sub-schema: an object whose keys all come from the three
declared booleans, with all three present and boolean. -/
def visualValid (v : JSVal) : Bool :=
  match v with
  | JSVal.obj fs =>
    fs.all (fun kv => ["foam", "bubbles", "steam"].contains kv.1 && isBool kv.2)
      && isBool (getField v "foam") && isBool (getField v "bubbles")
      && isBool (getField v "steam")
  | _ => false

def tasteNotesValid (v : JSVal) : Bool :=
  match v with
  | JSVal.arr xs => xs.length ≤ 3 && xs.all isStr
  | _ => false

def allowedKeys2 : List String :=
  ["displayName", "colorHex", "temperature", "container", "visual",
   "tasteNotes", "effectId", "effectParams", "message"]

/-- A candidate object satisfying the full revision 2 `DrinkSchema`
(`additionalProperties: false`, all required fields, enums, pattern, string
bounds, numeric bounds). -/
def candidateValid2 (v : JSVal) : Bool :=
  match v with
  | JSVal.obj fs =>
    fs.all (fun kv => allowedKeys2.contains kv.1)
      && isStrMax (getField v "displayName") 40
      && hexValid (getField v "colorHex")
      && strIncludes TEMPS (getField v "temperature")
      && strIncludes CONTAINERS (getField v "container")
      && visualValid (getField v "visual")
      && tasteNotesValid (getField v "tasteNotes")
      && strIncludes EFFECTS2 (getField v "effectId")
      && paramsValid2 (getField v "effectParams")
      && isStrMax (getField v "message") 120
  | _ => false

/-- A sanitized `Drink` against the same schema (the structure already
fixes the field set and the `visual` booleans). -/
def drinkSchemaValid (d : Drink) : Bool :=
  decide (d.displayName.length ≤ 40)
    && hexValid d.colorHex
    && TEMPS.contains d.temperature
    && CONTAINERS.contains d.container
    && decide (d.tasteNotes.length ≤ 3)
    && EFFECTS2.contains d.effectId
    && paramsValid2 d.effectParams
    && decide (d.message.length ≤ 120)

/-! ### Concrete inputs used by the claim theorems -/

/-- A moderation envelope with a not-flagged verdict. -/
def modOkClean : JSVal :=
  JSVal.obj [("results", JSVal.arr [JSVal.obj [("flagged", JSVal.bool false)]])]

def bodyTea : JSVal := JSVal.obj [("query", JSVal.str "tea")]

/-- Candidate with an in-enum `effectId` but an out-of-bounds
`effectParams.duration` (999, declared maximum 15). -/
def c1Params : JSVal :=
  JSVal.obj
    [("duration", JSVal.num 999), ("speedMultiplier", JSVal.num 1),
     ("jumpBoost", JSVal.num 0), ("glowBrightness", JSVal.num 5),
     ("power", JSVal.num 0), ("radius", JSVal.num 0)]

def c1Data : JSVal :=
  JSVal.obj
    [("displayName", JSVal.str "Odd Tea"), ("colorHex", JSVal.str "#112233"),
     ("temperature", JSVal.str "hot"), ("container", JSVal.str "mug"),
     ("visual", JSVal.obj
       [("foam", JSVal.bool false), ("bubbles", JSVal.bool true), ("steam", JSVal.bool false)]),
     ("tasteNotes", JSVal.arr [JSVal.str "odd"]), ("effectId", JSVal.str "GLOW"),
     ("effectParams", c1Params), ("message", JSVal.str "Hmm.")]

def c1Resp : JSVal := JSVal.obj [("output_parsed", c1Data)]

/-- A generation envelope whose text parses to a drink with a `GLOW`
effect. -/
def respTea : JSVal :=
  JSVal.obj
    [("output", JSVal.arr [JSVal.obj [("content", JSVal.arr
      [JSVal.obj [("text",
        JSVal.str "\x7b\"displayName\":\"Tea\",\"effectId\":\"GLOW\"\x7d")]])]])]

def teaDrinkJS : JSVal :=
  JSVal.obj [("displayName", JSVal.str "Tea"), ("effectId", JSVal.str "GLOW")]

/-- A 51-character query. -/
def s51 : String := String.mk (List.replicate 51 'a')

/-- Candidate for C6: in-enum effect, `glowBrightness` far above its bound. -/
def c6Data : JSVal :=
  JSVal.obj
    [("effectId", JSVal.str "GLOW"),
     ("effectParams", JSVal.obj [("glowBrightness", JSVal.num 999)])]

/-- Candidate for C7: out-of-enum effect with non-default params. -/
def c7Data : JSVal :=
  JSVal.obj
    [("effectId", JSVal.str "TELEPORT"),
     ("effectParams", JSVal.obj [("duration", JSVal.num 5)])]

/-- Schema-valid candidate whose `message` is the empty string. -/
def c8Data : JSVal :=
  JSVal.obj
    [("displayName", JSVal.str "Tea"), ("colorHex", JSVal.str "#112233"),
     ("temperature", JSVal.str "hot"), ("container", JSVal.str "mug"),
     ("visual", JSVal.obj
       [("foam", JSVal.bool false), ("bubbles", JSVal.bool true), ("steam", JSVal.bool false)]),
     ("tasteNotes", JSVal.arr [JSVal.str "sweet"]), ("effectId", JSVal.str "WARMTH"),
     ("effectParams", JSVal.obj
       [("duration", JSVal.num 5), ("speedMultiplier", JSVal.num 1),
        ("jumpBoost", JSVal.num 0), ("glowBrightness", JSVal.num 0),
        ("power", JSVal.num 0), ("radius", JSVal.num 0)]),
     ("message", JSVal.str "")]

/-- Schema-valid candidate with nonempty strings, for the round-trip
witness. -/
def c8GoodData : JSVal :=
  JSVal.obj
    [("displayName", JSVal.str "Mint Fizz"), ("colorHex", JSVal.str "#AABB00"),
     ("temperature", JSVal.str "cool"), ("container", JSVal.str "glass"),
     ("visual", JSVal.obj
       [("foam", JSVal.bool true), ("bubbles", JSVal.bool true), ("steam", JSVal.bool false)]),
     ("tasteNotes", JSVal.arr [JSVal.str "mint", JSVal.str "fizzy"]),
     ("effectId", JSVal.str "COOLING"),
     ("effectParams", JSVal.obj
       [("duration", JSVal.num 5), ("speedMultiplier", JSVal.num 1),
        ("jumpBoost", JSVal.num 0), ("glowBrightness", JSVal.num 0),
        ("power", JSVal.num 0), ("radius", JSVal.num 0)]),
     ("message", JSVal.str "Refreshing.")]

/-! ### Helper lemmas -/

theorem string_mk_length (l : List Char) : (String.mk l).length = l.length := rfl

theorem string_mk_data (s : String) : String.mk s.data = s := rfl

theorem jsSlice_length_le (s : String) (n : Nat) : (jsSlice s n).length ≤ n := by
  simp [jsSlice, string_mk_length, List.length_take]

theorem jsTrim_length_le (s : String) : (jsTrim s).length ≤ s.length := by
  have h0 : s.length = s.data.length := rfl
  have h1 := (List.dropWhile_sublist (l := s.data) jsWS).length_le
  have h2 := (List.dropWhile_sublist (l := (s.data.dropWhile jsWS).reverse) jsWS).length_le
  simp only [jsTrim, string_mk_length, List.length_reverse]
  simp [List.length_reverse] at h2
  omega

theorem jsSlice_of_le (s : String) (n : Nat) (h : s.length ≤ n) : jsSlice s n = s := by
  simp only [jsSlice]
  rw [List.take_of_length_le h, string_mk_data]

theorem pickEnum_mem (allowed : List String) (v : JSVal) (dflt : String)
    (h : dflt ∈ allowed) : pickEnum allowed v dflt ∈ allowed := by
  cases v <;> try exact h
  rename_i s
  simp only [pickEnum]
  by_cases hs : allowed.contains s = true
  · simp only [hs, if_true]
    exact List.mem_of_elem_eq_true hs
  · simp only [hs, if_false]
    exact h

theorem strs_map_roundtrip (xs : List JSVal) (h : xs.all isStr = true) :
    xs.map (fun x => JSVal.str (jsToString x)) = xs := by
  induction xs with
  | nil => rfl
  | cons x rest ih =>
    simp only [List.all_cons, Bool.and_eq_true] at h
    cases x <;> simp_all [isStr, jsToString]

theorem clampQ_bounds (v : JSVal) (lo hi : ℚ) (h : lo ≤ hi) :
    lo ≤ clampQ v lo hi ∧ clampQ v lo hi ≤ hi :=
  ⟨le_max_left _ _, max_le h (min_le_left _ _)⟩

theorem getField_setAssoc_same (fs : List (String × JSVal)) (k : String) (v : JSVal) :
    getField (JSVal.obj (setAssoc fs k v)) k = v := by
  induction fs with
  | nil => simp [setAssoc, getField, List.find?]
  | cons kv rest ih =>
    by_cases h : kv.1 = k
    · simp [setAssoc, h, getField, List.find?]
    · simp only [setAssoc, h, if_false]
      simp only [getField, List.find?] at ih ⊢
      simpa [h] using ih

theorem getField_setAssoc_ne (fs : List (String × JSVal)) (k k' : String) (v : JSVal)
    (h : k' ≠ k) : getField (JSVal.obj (setAssoc fs k v)) k' = getField (JSVal.obj fs) k' := by
  have hk0 : ¬ (k = k') := fun he => h he.symm
  induction fs with
  | nil => simp [setAssoc, getField, List.find?, hk0]
  | cons kv rest ih =>
    by_cases hk : kv.1 = k
    · subst hk
      simp [setAssoc, getField, List.find?, hk0]
    · simp only [setAssoc, hk, if_false]
      simp only [getField, List.find?] at ih ⊢
      by_cases hk2 : kv.1 = k'
      · simp [hk2]
      · simpa [hk2] using ih

/-! ### Claim C1 -/

/-- Claim C1, counterexample: revision 2 returns the sanitizer output to
the client even though `clean` passes `effectParams` through unchanged, so
a candidate with `duration = 999` (declared maximum 15) yields a response
violating the Response Schema numeric bounds. -/
theorem c1_schema_violation_cex :
    handlePost2 bodyTea false (CallResult.ok modOkClean) (CallResult.ok c1Resp)
      = HttpResp.okJson (drinkToJS (clean c1Data "tea"))
    ∧ (clean c1Data "tea").effectParams = c1Params
    ∧ paramEntryOk "duration" (JSVal.num 999) = false
    ∧ drinkSchemaValid (clean c1Data "tea") = false :=
  ⟨rfl, rfl, by decide, by decide⟩

/-- Claim C1, amended: every field of the revision 2 sanitizer output
except `effectParams` satisfies its Response Schema constraint (for
`colorHex`, after the same string coercion the sanitizer itself tests);
`effectParams` is passed through unchanged and may violate its declared
bounds, and the earlier revision returns parsed model output entirely
unsanitized. -/
theorem c1_sanitizer_fieldwise_valid (data : JSVal) (q : String) :
    (clean data q).displayName.length ≤ 40
    ∧ hexPattern (jsToString (clean data q).colorHex) = true
    ∧ (clean data q).temperature ∈ TEMPS
    ∧ (clean data q).container ∈ CONTAINERS
    ∧ (clean data q).tasteNotes.length ≤ 3
    ∧ (clean data q).effectId ∈ EFFECTS2
    ∧ (clean data q).message.length ≤ 120 := by
  refine ⟨jsSlice_length_le _ 40, ?_, ?_, ?_, ?_, ?_, ?_⟩
  · dsimp only [clean]
    by_cases hc : hexPattern (jsToString (getField data "colorHex")) = true
    · simp only [hc, if_true]
    · simp only [hc, if_false]
      rfl
  · exact pickEnum_mem TEMPS _ "ambient" (by decide)
  · exact pickEnum_mem CONTAINERS _ "paper_cup" (by decide)
  · dsimp only [clean]
    cases getField data "tasteNotes" <;> simp [List.length_take]
  · exact pickEnum_mem EFFECTS2 _ "NONE" (by decide)
  · dsimp only [clean]
    by_cases hm : jsSlice (jsToString (jsOr (getField data "message") (JSVal.str ""))) 120 = ""
    · simp only [stringOr, hm, if_true]
      decide
    · simp only [stringOr, hm, if_false]
      exact jsSlice_length_le _ 120

/-! ### Claim C2 -/

/-- Claim C2, counterexample: in the part_003 revision, a successful
generation call whose body yields no parseable drink object is answered
with HTTP 500 ("Server error"), not a fallback at HTTP success. -/
theorem c2_part003_500_cex :
    handlePost3 (JSVal.obj [("query", JSVal.str "lemonade")])
        (Gen3Outcome.okBody (JSVal.obj []))
      = HttpResp.errorStatus 500 err500Body3 := rfl

/-- Claim C2, amended: in revision 2 of src/index.js every failure below
the route boundary resolves to a 200 fallback or the 400 input error —
no input at all produces a 5xx response. -/
theorem c2_rev2_never_5xx (body : JSVal) (rl : Bool) (mod : CallResult) (gen : CallResult) :
    is5xx (handlePost2 body rl mod gen) = false := by
  unfold handlePost2
  dsimp only
  repeat' split <;> try rfl

/-! ### Claim C3 -/

/-- Claim C3: in revision 2, for a non-empty processed query that moderation
does not flag, a failed generation call — or one whose extraction yields no
truthy object with a truthy `effectId` — produces exactly the Generic OK
Fallback (displayName the query, `#A0C4FF`, ambient, paper cup, bubbles
only, `["mild"]`, `NONE`, the soft-hum message), which is an HTTP success
and differs from the hard failsafe. -/
theorem c3_generic_ok_fallback (body : JSVal) (mod : CallResult) (gen : CallResult)
    (hq : processedQuery2 body ≠ "")
    (hm : moderationFlagged mod = false)
    (hg : gen = CallResult.failed ∨ ∃ r, gen = CallResult.ok r ∧
      (truthy (extractDrinkStruct r) = false
        ∨ truthy (getField (extractDrinkStruct r) "effectId") = false)) :
    handlePost2 body false mod gen
      = HttpResp.okJson (drinkToJS (FALLBACK_OK (processedQuery2 body)))
    ∧ (FALLBACK_OK (processedQuery2 body)).displayName = processedQuery2 body
    ∧ (FALLBACK_OK (processedQuery2 body)).colorHex = JSVal.str "#A0C4FF"
    ∧ (FALLBACK_OK (processedQuery2 body)).temperature = "ambient"
    ∧ (FALLBACK_OK (processedQuery2 body)).container = "paper_cup"
    ∧ (FALLBACK_OK (processedQuery2 body)).visual.foam = false
    ∧ (FALLBACK_OK (processedQuery2 body)).visual.bubbles = true
    ∧ (FALLBACK_OK (processedQuery2 body)).visual.steam = false
    ∧ (FALLBACK_OK (processedQuery2 body)).tasteNotes = ["mild"]
    ∧ (FALLBACK_OK (processedQuery2 body)).effectId = "NONE"
    ∧ (FALLBACK_OK (processedQuery2 body)).message
        = "A nondescript drink dispenses with a soft hum."
    ∧ FALLBACK_OK (processedQuery2 body) ≠ FAILSAFE := by
  refine ⟨?_, ?_, rfl, rfl, rfl, rfl, rfl, rfl, rfl, rfl, rfl, ?_⟩
  · unfold handlePost2
    rcases hg with hg | ⟨r, hr, hcase⟩
    · subst hg
      simp [hq, hm]
    · subst hr
      rcases hcase with hc | hc <;> simp [hq, hm, hc]
  · simp [FALLBACK_OK, stringOr, hq]
  · intro h
    have hmsg := congrArg Drink.message h
    simp only [FALLBACK_OK, FAILSAFE] at hmsg
    exact absurd hmsg (by decide)

/-- Claim C3, witness. -/
theorem c3_generic_ok_fallback_witness :
    processedQuery2 bodyTea ≠ ""
    ∧ moderationFlagged CallResult.failed = false
    ∧ (handlePost2 bodyTea false CallResult.failed CallResult.failed
        = HttpResp.okJson (drinkToJS (FALLBACK_OK (processedQuery2 bodyTea)))
      ∧ (FALLBACK_OK (processedQuery2 bodyTea)).displayName = processedQuery2 bodyTea
      ∧ (FALLBACK_OK (processedQuery2 bodyTea)).colorHex = JSVal.str "#A0C4FF"
      ∧ (FALLBACK_OK (processedQuery2 bodyTea)).temperature = "ambient"
      ∧ (FALLBACK_OK (processedQuery2 bodyTea)).container = "paper_cup"
      ∧ (FALLBACK_OK (processedQuery2 bodyTea)).visual.foam = false
      ∧ (FALLBACK_OK (processedQuery2 bodyTea)).visual.bubbles = true
      ∧ (FALLBACK_OK (processedQuery2 bodyTea)).visual.steam = false
      ∧ (FALLBACK_OK (processedQuery2 bodyTea)).tasteNotes = ["mild"]
      ∧ (FALLBACK_OK (processedQuery2 bodyTea)).effectId = "NONE"
      ∧ (FALLBACK_OK (processedQuery2 bodyTea)).message
          = "A nondescript drink dispenses with a soft hum."
      ∧ FALLBACK_OK (processedQuery2 bodyTea) ≠ FAILSAFE) :=
  ⟨by decide, rfl,
   c3_generic_ok_fallback bodyTea CallResult.failed CallResult.failed (by decide) rfl
     (Or.inl rfl)⟩

/-! ### Claim C4 -/

/-- Claim C4, counterexample: in the part_000 revision the moderation call
is not guarded, so a moderation failure lands in the outer catch and the
response is the hard failsafe — not the drink that the very same generation
response produces when moderation succeeds. -/
theorem c4_part000_failsafe_cex :
    handlePost0 bodyTea false CallResult.failed (CallResult.ok respTea)
      = HttpResp.okJson (drinkToJS FAILSAFE)
    ∧ handlePost0 bodyTea false (CallResult.ok modOkClean) (CallResult.ok respTea)
      = HttpResp.okJson teaDrinkJS
    ∧ HttpResp.okJson (drinkToJS FAILSAFE) ≠ HttpResp.okJson teaDrinkJS := by
  refine ⟨rfl, rfl, ?_⟩
  intro h
  have hlen : ((8 : Nat) = 2) :=
    congrArg (fun r => match r with
      | HttpResp.okJson (JSVal.obj l) => l.length
      | _ => 0) h
  exact absurd hlen (by decide)

/-- Claim C4, amended: in revision 2 of src/index.js a moderation outcome
that is not flagged — in particular a failed or timed-out call — is
indistinguishable from a failed call: the pipeline proceeds to generation
identically. -/
theorem c4_moderation_advisory_rev2 (body : JSVal) (rl : Bool) (gen : CallResult)
    (mod : CallResult) (hm : moderationFlagged mod = false) :
    handlePost2 body rl mod gen = handlePost2 body rl CallResult.failed gen := by
  unfold handlePost2
  rw [hm]
  rfl

/-- Claim C4, witness. -/
theorem c4_moderation_advisory_rev2_witness :
    moderationFlagged (CallResult.ok modOkClean) = false
    ∧ handlePost2 bodyTea false (CallResult.ok modOkClean) CallResult.failed
      = handlePost2 bodyTea false CallResult.failed CallResult.failed :=
  ⟨rfl, c4_moderation_advisory_rev2 bodyTea false CallResult.failed
    (CallResult.ok modOkClean) rfl⟩

/-! ### Claim C5 -/

/-- Claim C5, counterexample: in the part_003 revision the query is only
trimmed, never sliced, so a 51-character query is processed at full
length — the processed query exceeds 50 characters. -/
theorem c5_part003_no_truncation_cex :
    query3 (JSVal.obj [("query", JSVal.str s51)]) = s51
    ∧ (query3 (JSVal.obj [("query", JSVal.str s51)])).length = 51 := ⟨rfl, rfl⟩

/-- Claim C5, amended: in the src/index.js revisions the raw query is
sliced to its first 50 characters and then trimmed, so the processed query
never exceeds 50 characters, and any raw query of at most 50 characters is
processed exactly as its trimmed self. -/
theorem c5_truncation_rev2 (s : String) :
    processedQuery2 (JSVal.obj [("query", JSVal.str s)]) = jsTrim (jsSlice s 50)
    ∧ (jsTrim (jsSlice s 50)).length ≤ 50
    ∧ (s.length ≤ 50 → jsTrim (jsSlice s 50) = jsTrim s) := by
  refine ⟨rfl, le_trans (jsTrim_length_le _) (jsSlice_length_le s 50), ?_⟩
  intro h
  rw [jsSlice_of_le s 50 h]

/-- Claim C5, witness. -/
theorem c5_truncation_rev2_witness :
    processedQuery2 (JSVal.obj [("query", JSVal.str "fifty")]) = jsTrim (jsSlice "fifty" 50)
    ∧ (jsTrim (jsSlice "fifty" 50)).length ≤ 50
    ∧ jsTrim (jsSlice "fifty" 50) = jsTrim "fifty" :=
  ⟨(c5_truncation_rev2 "fifty").1, (c5_truncation_rev2 "fifty").2.1,
   (c5_truncation_rev2 "fifty").2.2 (by decide)⟩

/-! ### Claims C6 and C7: helper lemmas on the clamp block -/

theorem getField_setField_same (fs : List (String × JSVal)) (k : String) (v : JSVal) :
    getField (setField (JSVal.obj fs) k v) k = v :=
  getField_setAssoc_same fs k v

theorem clampBlock_fields (es : List (String × JSVal)) :
    getField (clampBlock (JSVal.obj es)) "duration"
      = JSVal.num (clampQ (getField (JSVal.obj es) "duration") 0 60)
    ∧ getField (clampBlock (JSVal.obj es)) "speedMultiplier"
      = JSVal.num (clampQ (getField (JSVal.obj es) "speedMultiplier") (mkRat 1 5) 3)
    ∧ getField (clampBlock (JSVal.obj es)) "jumpBoost"
      = JSVal.num (clampQ (getField (JSVal.obj es) "jumpBoost") 0 80)
    ∧ getField (clampBlock (JSVal.obj es)) "glowBrightness"
      = JSVal.num (clampQ (getField (JSVal.obj es) "glowBrightness") 0 20)
    ∧ getField (clampBlock (JSVal.obj es)) "power"
      = JSVal.num (clampQ (getField (JSVal.obj es) "power") 0 10)
    ∧ getField (clampBlock (JSVal.obj es)) "radius"
      = JSVal.num (clampQ (getField (JSVal.obj es) "radius") 0 30) := by
  dsimp only [clampBlock, setField]
  refine ⟨?_, ?_, ?_, ?_, ?_, ?_⟩ <;>
    simp (disch := decide) only [getField_setAssoc_same, getField_setAssoc_ne]

/-- Claim C6, counterexample: the revision 2 sanitizer keeps an in-enum
`effectId` but passes `effectParams` through unchanged, so an out-of-range
`glowBrightness = 999` (declared maximum 10) survives sanitization. -/
theorem c6_rev2_passthrough_cex :
    (clean c6Data "soda").effectId = "GLOW"
    ∧ (clean c6Data "soda").effectParams = JSVal.obj [("glowBrightness", JSVal.num 999)]
    ∧ paramEntryOk "glowBrightness" (JSVal.num 999) = false :=
  ⟨rfl, rfl, by decide⟩

/-- Claim C6, amended: the clamping described by the claim is the part_003
behavior.  There, for any extracted object with an in-catalog `effectId`
and an object-valued `effectParams`, every numeric knob of the sanitized
output lies in its declared part_003 range (duration [0,60],
speedMultiplier [0.2,3], jumpBoost [0,80], glowBrightness [0,20],
power [0,10], radius [0,30]); in src/index.js revision 2 the sanitizer
passes `effectParams` through unchanged. -/
theorem c6_part003_clamped (fs eps : List (String × JSVal))
    (hid : strIncludes EFFECT_ENUM3 (getField (JSVal.obj fs) "effectId") = true)
    (hep : getField (JSVal.obj fs) "effectParams" = JSVal.obj eps) :
    ∃ o, sanitize3 (JSVal.obj fs) = some o
    ∧ (∃ q : ℚ, getField (getField o "effectParams") "duration" = JSVal.num q
        ∧ 0 ≤ q ∧ q ≤ 60)
    ∧ (∃ q : ℚ, getField (getField o "effectParams") "speedMultiplier" = JSVal.num q
        ∧ mkRat 1 5 ≤ q ∧ q ≤ 3)
    ∧ (∃ q : ℚ, getField (getField o "effectParams") "jumpBoost" = JSVal.num q
        ∧ 0 ≤ q ∧ q ≤ 80)
    ∧ (∃ q : ℚ, getField (getField o "effectParams") "glowBrightness" = JSVal.num q
        ∧ 0 ≤ q ∧ q ≤ 20)
    ∧ (∃ q : ℚ, getField (getField o "effectParams") "power" = JSVal.num q
        ∧ 0 ≤ q ∧ q ≤ 10)
    ∧ (∃ q : ℚ, getField (getField o "effectParams") "radius" = JSVal.num q
        ∧ 0 ≤ q ∧ q ≤ 30) := by
  have hfields := clampBlock_fields eps
  have hs : sanitize3 (JSVal.obj fs)
      = some (setField (JSVal.obj fs) "effectParams" (clampBlock (JSVal.obj eps))) := by
    unfold sanitize3
    dsimp only
    rw [hid]
    simp only [Bool.not_true, Bool.false_eq_true, if_false]
    rw [hep]
    rfl
  refine ⟨_, hs, ?_, ?_, ?_, ?_, ?_, ?_⟩
  · exact ⟨_, by rw [getField_setField_same, hfields.1],
      (clampQ_bounds _ 0 60 (by decide)).1, (clampQ_bounds _ 0 60 (by decide)).2⟩
  · exact ⟨_, by rw [getField_setField_same, hfields.2.1],
      (clampQ_bounds _ (mkRat 1 5) 3 (by decide)).1,
      (clampQ_bounds _ (mkRat 1 5) 3 (by decide)).2⟩
  · exact ⟨_, by rw [getField_setField_same, hfields.2.2.1],
      (clampQ_bounds _ 0 80 (by decide)).1, (clampQ_bounds _ 0 80 (by decide)).2⟩
  · exact ⟨_, by rw [getField_setField_same, hfields.2.2.2.1],
      (clampQ_bounds _ 0 20 (by decide)).1, (clampQ_bounds _ 0 20 (by decide)).2⟩
  · exact ⟨_, by rw [getField_setField_same, hfields.2.2.2.2.1],
      (clampQ_bounds _ 0 10 (by decide)).1, (clampQ_bounds _ 0 10 (by decide)).2⟩
  · exact ⟨_, by rw [getField_setField_same, hfields.2.2.2.2.2],
      (clampQ_bounds _ 0 30 (by decide)).1, (clampQ_bounds _ 0 30 (by decide)).2⟩

/-- Claim C6, witness. -/
theorem c6_part003_clamped_witness :
    strIncludes EFFECT_ENUM3
      (getField (JSVal.obj [("effectId", JSVal.str "GLOW"),
        ("effectParams", JSVal.obj [("glowBrightness", JSVal.num 999)])]) "effectId") = true
    ∧ getField (JSVal.obj [("effectId", JSVal.str "GLOW"),
        ("effectParams", JSVal.obj [("glowBrightness", JSVal.num 999)])]) "effectParams"
      = JSVal.obj [("glowBrightness", JSVal.num 999)]
    ∧ (∃ o, sanitize3 (JSVal.obj [("effectId", JSVal.str "GLOW"),
          ("effectParams", JSVal.obj [("glowBrightness", JSVal.num 999)])]) = some o
      ∧ (∃ q : ℚ, getField (getField o "effectParams") "duration" = JSVal.num q
          ∧ 0 ≤ q ∧ q ≤ 60)
      ∧ (∃ q : ℚ, getField (getField o "effectParams") "speedMultiplier" = JSVal.num q
          ∧ mkRat 1 5 ≤ q ∧ q ≤ 3)
      ∧ (∃ q : ℚ, getField (getField o "effectParams") "jumpBoost" = JSVal.num q
          ∧ 0 ≤ q ∧ q ≤ 80)
      ∧ (∃ q : ℚ, getField (getField o "effectParams") "glowBrightness" = JSVal.num q
          ∧ 0 ≤ q ∧ q ≤ 20)
      ∧ (∃ q : ℚ, getField (getField o "effectParams") "power" = JSVal.num q
          ∧ 0 ≤ q ∧ q ≤ 10)
      ∧ (∃ q : ℚ, getField (getField o "effectParams") "radius" = JSVal.num q
          ∧ 0 ≤ q ∧ q ≤ 30)) :=
  ⟨by decide, rfl,
   c6_part003_clamped [("effectId", JSVal.str "GLOW"),
     ("effectParams", JSVal.obj [("glowBrightness", JSVal.num 999)])]
     [("glowBrightness", JSVal.num 999)] (by decide) rfl⟩

/-- Claim C7, counterexample: the revision 2 sanitizer coerces an
out-of-catalog `effectId` to NONE but does not reset `effectParams` to the
neutral defaults — the original params survive. -/
theorem c7_rev2_no_reset_cex :
    (clean c7Data "fizz").effectId = "NONE"
    ∧ (clean c7Data "fizz").effectParams = JSVal.obj [("duration", JSVal.num 5)]
    ∧ JSVal.obj [("duration", JSVal.num 5)] ≠ defaultParams3 := by
  refine ⟨rfl, rfl, ?_⟩
  intro h
  have hlen : ((1 : Nat) = 6) :=
    congrArg (fun v => match v with | JSVal.obj l => l.length | _ => 0) h
  exact absurd hlen (by decide)

/-- Claim C7, amended: the reset described by the claim is the part_003
behavior.  There, an extracted object whose `effectId` is outside the
catalog is normalized to `effectId = "NONE"` with `effectParams` reset to
the all-zero/neutral defaults (duration 0, speedMultiplier 1, jumpBoost 0,
glowBrightness 0, power 0, radius 0); in src/index.js revision 2 the
`effectId` is coerced to NONE but `effectParams` is passed through
unchanged. -/
theorem c7_part003_reset (fs : List (String × JSVal))
    (hid : strIncludes EFFECT_ENUM3 (getField (JSVal.obj fs) "effectId") = false) :
    ∃ o, sanitize3 (JSVal.obj fs) = some o
    ∧ getField o "effectId" = JSVal.str "NONE"
    ∧ getField o "effectParams" = defaultParams3 := by
  have hs : sanitize3 (JSVal.obj fs)
      = some (JSVal.obj (setAssoc (setAssoc (setAssoc fs "effectId" (JSVal.str "NONE"))
          "effectParams" defaultParams3) "effectParams" (clampBlock defaultParams3))) := by
    unfold sanitize3
    dsimp only
    rw [hid]
    simp only [Bool.not_false, if_true, setField]
    rw [getField_setAssoc_same]
    rfl
  refine ⟨_, hs, ?_, ?_⟩
  · rw [getField_setAssoc_ne _ _ _ _ (by decide), getField_setAssoc_ne _ _ _ _ (by decide),
      getField_setAssoc_same]
  · rw [getField_setAssoc_same]
    rfl

/-- Claim C7, witness. -/
theorem c7_part003_reset_witness :
    strIncludes EFFECT_ENUM3
      (getField (JSVal.obj [("effectId", JSVal.str "TELEPORT"),
        ("effectParams", JSVal.obj [("duration", JSVal.num 5)])]) "effectId") = false
    ∧ (∃ o, sanitize3 (JSVal.obj [("effectId", JSVal.str "TELEPORT"),
          ("effectParams", JSVal.obj [("duration", JSVal.num 5)])]) = some o
      ∧ getField o "effectId" = JSVal.str "NONE"
      ∧ getField o "effectParams" = defaultParams3) :=
  ⟨by decide,
   c7_part003_reset [("effectId", JSVal.str "TELEPORT"),
     ("effectParams", JSVal.obj [("duration", JSVal.num 5)])] (by decide)⟩

/-! ### Claim C8: helper lemmas -/

theorem isStrMax_elim (v : JSVal) (n : Nat) (h : isStrMax v n = true) :
    ∃ s, v = JSVal.str s ∧ s.length ≤ n := by
  cases v
  case str s => exact ⟨s, rfl, of_decide_eq_true h⟩
  all_goals exact Bool.noConfusion h

theorem strIncludes_elim (allowed : List String) (v : JSVal)
    (h : strIncludes allowed v = true) :
    ∃ s, v = JSVal.str s ∧ allowed.contains s = true := by
  cases v
  case str s => exact ⟨s, rfl, h⟩
  all_goals exact Bool.noConfusion h

theorem hexValid_elim (v : JSVal) (h : hexValid v = true) :
    ∃ s, v = JSVal.str s ∧ hexPattern s = true := by
  cases v
  case str s => exact ⟨s, rfl, h⟩
  all_goals exact Bool.noConfusion h

theorem isBool_elim (v : JSVal) (h : isBool v = true) : ∃ b, v = JSVal.bool b := by
  cases v
  case bool b => exact ⟨b, rfl⟩
  all_goals exact Bool.noConfusion h

theorem visualValid_elim (v : JSVal) (h : visualValid v = true) :
    ∃ fs2, v = JSVal.obj fs2
      ∧ (∃ b, getField v "foam" = JSVal.bool b)
      ∧ (∃ b, getField v "bubbles" = JSVal.bool b)
      ∧ (∃ b, getField v "steam" = JSVal.bool b) := by
  cases v
  case obj fs2 =>
    simp only [visualValid, Bool.and_eq_true] at h
    exact ⟨fs2, rfl, isBool_elim _ h.1.1.2, isBool_elim _ h.1.2, isBool_elim _ h.2⟩
  all_goals exact Bool.noConfusion h

theorem tasteNotesValid_elim (v : JSVal) (h : tasteNotesValid v = true) :
    ∃ xs, v = JSVal.arr xs ∧ xs.length ≤ 3 ∧ xs.all isStr = true := by
  cases v
  case arr xs =>
    simp only [tasteNotesValid, Bool.and_eq_true, decide_eq_true_eq] at h
    exact ⟨xs, rfl, h.1, h.2⟩
  all_goals exact Bool.noConfusion h

theorem paramsValid2_elim (v : JSVal) (h : paramsValid2 v = true)
    (hne : v ≠ JSVal.undef) : ∃ eps, v = JSVal.obj eps := by
  cases v
  case undef => exact absurd rfl hne
  case obj eps => exact ⟨eps, rfl⟩
  all_goals exact Bool.noConfusion h

theorem truthy_optGet_bool (fs2 : List (String × JSVal)) (k : String) (b : Bool)
    (h : getField (JSVal.obj fs2) k = JSVal.bool b) :
    truthy (optGet (JSVal.obj fs2) k) = b := by
  dsimp only [optGet]
  rw [h]
  rfl

/-! ### Claim C8 -/

/-- Claim C8, counterexample: the empty string satisfies the schema for
`message` (only a maximum length is declared), yet the revision 2 sanitizer
replaces it with the default chirp line — a schema-valid object is not
returned unchanged field-for-field. -/
theorem c8_empty_message_cex :
    candidateValid2 c8Data = true
    ∧ getField c8Data "message" = JSVal.str ""
    ∧ (clean c8Data "tea").message = "The machine chirps pleasantly." :=
  ⟨by decide, rfl, rfl⟩

/-- Claim C8, amended: a candidate that satisfies the Response Schema and
additionally has a non-empty `displayName`, a non-empty `message` and an
`effectParams` key present is returned by the revision 2 sanitizer
unchanged field-for-field; schema-valid objects with an empty string in
those two fields get the default text instead, and a missing `effectParams`
comes back as `\x7b\x7d`. -/
theorem c8_valid_roundtrip (d : JSVal) (q : String)
    (hv : candidateValid2 d = true)
    (hdn : truthy (getField d "displayName") = true)
    (hmsg : truthy (getField d "message") = true)
    (hep : getField d "effectParams" ≠ JSVal.undef) :
    JSVal.str (clean d q).displayName = getField d "displayName"
    ∧ (clean d q).colorHex = getField d "colorHex"
    ∧ JSVal.str (clean d q).temperature = getField d "temperature"
    ∧ JSVal.str (clean d q).container = getField d "container"
    ∧ JSVal.bool (clean d q).visual.foam = getField (getField d "visual") "foam"
    ∧ JSVal.bool (clean d q).visual.bubbles = getField (getField d "visual") "bubbles"
    ∧ JSVal.bool (clean d q).visual.steam = getField (getField d "visual") "steam"
    ∧ JSVal.arr ((clean d q).tasteNotes.map JSVal.str) = getField d "tasteNotes"
    ∧ JSVal.str (clean d q).effectId = getField d "effectId"
    ∧ (clean d q).effectParams = getField d "effectParams"
    ∧ JSVal.str (clean d q).message = getField d "message" := by
  cases d
  case undef => exact Bool.noConfusion hv
  case null => exact Bool.noConfusion hv
  case bool b => exact Bool.noConfusion hv
  case num n => exact Bool.noConfusion hv
  case str s => exact Bool.noConfusion hv
  case arr xs => exact Bool.noConfusion hv
  case obj fs =>
  simp only [candidateValid2, Bool.and_eq_true] at hv
  obtain ⟨⟨⟨⟨⟨⟨⟨⟨⟨-, hdn2⟩, hhex⟩, htemp⟩, hcont⟩, hvis⟩, htn⟩, heff⟩, hpar⟩, hmsg2⟩ := hv
  obtain ⟨ds, hds, hdsle⟩ := isStrMax_elim _ _ hdn2
  obtain ⟨cs, hcs, hcsp⟩ := hexValid_elim _ hhex
  obtain ⟨ts, hts, htsc⟩ := strIncludes_elim _ _ htemp
  obtain ⟨ks, hks, hksc⟩ := strIncludes_elim _ _ hcont
  obtain ⟨vfs, hvfs, ⟨bf, hbf⟩, ⟨bb, hbb⟩, ⟨bs, hbs⟩⟩ := visualValid_elim _ hvis
  obtain ⟨txs, htxs, htxle, htxstr⟩ := tasteNotesValid_elim _ htn
  obtain ⟨es, hes, hesc⟩ := strIncludes_elim _ _ heff
  obtain ⟨eps, hpe⟩ := paramsValid2_elim _ hpar hep
  obtain ⟨ms, hms, hmsle⟩ := isStrMax_elim _ _ hmsg2
  rw [hds] at hdn
  rw [hms] at hmsg
  rw [hvfs] at hbf hbb hbs
  refine ⟨?_, ?_, ?_, ?_, ?_, ?_, ?_, ?_, ?_, ?_, ?_⟩
  · -- displayName
    dsimp only [clean]
    rw [hds]
    rw [show jsOr (JSVal.str ds) (jsOr (JSVal.str q) (JSVal.str "Beverage"))
          = JSVal.str ds by unfold jsOr; rw [hdn]; rfl]
    rw [show jsToString (JSVal.str ds) = ds from rfl, jsSlice_of_le _ _ hdsle]
  · -- colorHex
    dsimp only [clean]
    rw [hcs]
    rw [show jsToString (JSVal.str cs) = cs from rfl, hcsp]
    rfl
  · -- temperature
    dsimp only [clean]
    rw [hts]
    dsimp only [pickEnum]
    rw [htsc]
    rfl
  · -- container
    dsimp only [clean]
    rw [hks]
    dsimp only [pickEnum]
    rw [hksc]
    rfl
  · -- visual.foam
    dsimp only [clean]
    rw [show optGet (JSVal.obj fs) "visual" = getField (JSVal.obj fs) "visual" from rfl,
      hvfs, truthy_optGet_bool vfs "foam" bf hbf, hbf]
  · -- visual.bubbles
    dsimp only [clean]
    rw [show optGet (JSVal.obj fs) "visual" = getField (JSVal.obj fs) "visual" from rfl,
      hvfs, truthy_optGet_bool vfs "bubbles" bb hbb, hbb]
  · -- visual.steam
    dsimp only [clean]
    rw [show optGet (JSVal.obj fs) "visual" = getField (JSVal.obj fs) "visual" from rfl,
      hvfs, truthy_optGet_bool vfs "steam" bs hbs, hbs]
  · -- tasteNotes
    dsimp only [clean]
    rw [htxs]
    dsimp only
    rw [List.take_of_length_le htxle, List.map_map]
    rw [show (JSVal.str ∘ jsToString) = (fun x => JSVal.str (jsToString x)) from rfl,
      strs_map_roundtrip txs htxstr]
  · -- effectId
    dsimp only [clean]
    rw [hes]
    dsimp only [pickEnum]
    rw [hesc]
    rfl
  · -- effectParams
    dsimp only [clean]
    rw [hpe]
    rfl
  · -- message
    dsimp only [clean]
    rw [hms]
    rw [show jsOr (JSVal.str ms) (JSVal.str "") = JSVal.str ms by unfold jsOr; rw [hmsg]; rfl]
    rw [show jsToString (JSVal.str ms) = ms from rfl, jsSlice_of_le _ _ hmsle]
    unfold stringOr
    rw [if_neg (by intro he; rw [he] at hmsg; exact Bool.noConfusion hmsg)]

/-- Claim C8, witness. -/
theorem c8_valid_roundtrip_witness :
    candidateValid2 c8GoodData = true
    ∧ truthy (getField c8GoodData "displayName") = true
    ∧ truthy (getField c8GoodData "message") = true
    ∧ getField c8GoodData "effectParams" ≠ JSVal.undef
    ∧ (JSVal.str (clean c8GoodData "x").displayName = getField c8GoodData "displayName"
      ∧ (clean c8GoodData "x").colorHex = getField c8GoodData "colorHex"
      ∧ JSVal.str (clean c8GoodData "x").temperature = getField c8GoodData "temperature"
      ∧ JSVal.str (clean c8GoodData "x").container = getField c8GoodData "container"
      ∧ JSVal.bool (clean c8GoodData "x").visual.foam
          = getField (getField c8GoodData "visual") "foam"
      ∧ JSVal.bool (clean c8GoodData "x").visual.bubbles
          = getField (getField c8GoodData "visual") "bubbles"
      ∧ JSVal.bool (clean c8GoodData "x").visual.steam
          = getField (getField c8GoodData "visual") "steam"
      ∧ JSVal.arr ((clean c8GoodData "x").tasteNotes.map JSVal.str)
          = getField c8GoodData "tasteNotes"
      ∧ JSVal.str (clean c8GoodData "x").effectId = getField c8GoodData "effectId"
      ∧ (clean c8GoodData "x").effectParams = getField c8GoodData "effectParams"
      ∧ JSVal.str (clean c8GoodData "x").message = getField c8GoodData "message") :=
  ⟨by decide, rfl, rfl, fun h => JSVal.noConfusion h,
   c8_valid_roundtrip c8GoodData "x" (by decide) rfl rfl (fun h => JSVal.noConfusion h)⟩

/-! ### Claim C9 -/

/-- Claim C9: in the part_003 revision a query containing a denylisted
substring (case-insensitively) short-circuits to the deny fallback — grey
`#5A5A5A`, `effectId` NONE, refusal-flavored description — and the response
does not depend on the generation outcome at all. -/
theorem c9_denylist_short_circuit (body : JSVal) (gen gen2 : Gen3Outcome)
    (hd : isDenied (query3 body) = true) :
    handlePost3 body gen
      = HttpResp.okJson (JSVal.obj [("status", JSVal.str "ok"),
          ("source", JSVal.str "denylist"), ("drink", FALLBACK_DENY3 (query3 body))])
    ∧ handlePost3 body gen = handlePost3 body gen2
    ∧ getField (FALLBACK_DENY3 (query3 body)) "effectId" = JSVal.str "NONE"
    ∧ getField (FALLBACK_DENY3 (query3 body)) "colorHex" = JSVal.str "#5A5A5A"
    ∧ getField (FALLBACK_DENY3 (query3 body)) "description"
        = JSVal.str "The machine hums but refuses your request." := by
  have hq : ¬ (query3 body = "") := by
    intro he
    rw [he] at hd
    exact absurd hd (by decide)
  refine ⟨?_, ?_, rfl, rfl, rfl⟩
  · unfold handlePost3
    simp [hq, hd]
  · unfold handlePost3
    simp [hq, hd]

/-- Claim C9, witness. -/
theorem c9_denylist_short_circuit_witness :
    isDenied (query3 (JSVal.obj [("query", JSVal.str "cyanide")])) = true
    ∧ (handlePost3 (JSVal.obj [("query", JSVal.str "cyanide")]) Gen3Outcome.notOk
        = HttpResp.okJson (JSVal.obj [("status", JSVal.str "ok"),
            ("source", JSVal.str "denylist"),
            ("drink", FALLBACK_DENY3 (query3 (JSVal.obj [("query", JSVal.str "cyanide")])))])
      ∧ handlePost3 (JSVal.obj [("query", JSVal.str "cyanide")]) Gen3Outcome.notOk
        = handlePost3 (JSVal.obj [("query", JSVal.str "cyanide")]) Gen3Outcome.networkError
      ∧ getField (FALLBACK_DENY3 (query3 (JSVal.obj [("query", JSVal.str "cyanide")]))) "effectId"
        = JSVal.str "NONE"
      ∧ getField (FALLBACK_DENY3 (query3 (JSVal.obj [("query", JSVal.str "cyanide")]))) "colorHex"
        = JSVal.str "#5A5A5A"
      ∧ getField (FALLBACK_DENY3 (query3 (JSVal.obj [("query", JSVal.str "cyanide")]))) "description"
        = JSVal.str "The machine hums but refuses your request.") :=
  ⟨by decide,
   c9_denylist_short_circuit (JSVal.obj [("query", JSVal.str "cyanide")])
     Gen3Outcome.notOk Gen3Outcome.networkError (by decide)⟩

/-! ### Claim C10 -/

/-- Claim C10, counterexample: in the part_003 revision the query is read
with `||`, so a present boolean `false` is treated as missing and rejected
with HTTP 400 even though `String(false)` is the non-empty text "false". -/
theorem c10_part003_falsy_cex :
    handlePost3 (JSVal.obj [("query", JSVal.bool false)]) Gen3Outcome.notOk
      = HttpResp.badRequest err400Body3
    ∧ jsToString (JSVal.bool false) = "false" := ⟨rfl, rfl⟩

/-- Claim C10, amended: in the src/index.js revisions (`?? ""`), any
present, non-null query value is processed exactly as the query string
`String(v)`, while a `null` or absent query reduces to the empty string
(the 400 path). -/
theorem c10_rev2_string_coercion (v : JSVal) (h1 : v ≠ JSVal.undef) (h2 : v ≠ JSVal.null) :
    processedQuery2 (JSVal.obj [("query", v)])
      = processedQuery2 (JSVal.obj [("query", JSVal.str (jsToString v))])
    ∧ processedQuery2 (JSVal.obj [("query", JSVal.null)]) = ""
    ∧ processedQuery2 (JSVal.obj []) = "" := by
  refine ⟨?_, rfl, rfl⟩
  cases v
  · exact absurd rfl h1
  · exact absurd rfl h2
  all_goals rfl

/-- Claim C10, witness: the number 42 behaves exactly like the query "42". -/
theorem c10_rev2_string_coercion_witness :
    JSVal.num 42 ≠ JSVal.undef ∧ JSVal.num 42 ≠ JSVal.null
    ∧ (processedQuery2 (JSVal.obj [("query", JSVal.num 42)])
        = processedQuery2 (JSVal.obj [("query", JSVal.str (jsToString (JSVal.num 42)))])
      ∧ processedQuery2 (JSVal.obj [("query", JSVal.null)]) = ""
      ∧ processedQuery2 (JSVal.obj []) = "") :=
  ⟨fun h => JSVal.noConfusion h, fun h => JSVal.noConfusion h,
   c10_rev2_string_coercion (JSVal.num 42)
     (fun h => JSVal.noConfusion h) (fun h => JSVal.noConfusion h)⟩

end SCP294
